import Mathlib

/-!
Verification development for `pyanaconda/storage/installation.py`.

The module under verification performs the final storage stage of the
installer: it activates a planned storage configuration
(`turn_on_filesystems`), marks boot devices bootable
(`_setup_bootable_devices`), writes LUKS escrow packets
(`_write_escrow_packets`) and writes DASD device configuration
(`_write_dasd_conf`).

The embedding below is shallow: the externally-owned device model (blivet
devices, formats, parted disks) is represented by plain Lean structures
holding exactly the attributes the module reads, and each function of the
module is translated into a pure Lean function that returns the sequence
of observable effects (log calls, attribute mutations, disk commits, file
writes) it performs, together with the mutated device values and the
exception it lets propagate, if any.  External calls that can raise
(`storage.do_it`, `blivet_util.makedirs`, `format.escrow`) are
parameterised by their outcome.
-/

namespace Installation

/-! ## String ordering

Python compares `str` values lexicographically by code point; this is the
order `dasds.sort(key=lambda d: d.name)` uses.  `String ≤` in Lean is not
kernel-reducible, so the same order is embedded as an executable
comparison on the underlying character lists. -/

/-- Lexicographic (by code point) comparison of character lists, the order
Python uses on strings. -/
def strLeAux : List Char → List Char → Bool
  | [], _ => true
  | _ :: _, [] => false
  | a :: as, b :: bs =>
    if a.toNat < b.toNat then true
    else if b.toNat < a.toNat then false
    else strLeAux as bs

/-- Python's `<=` on strings: lexicographic by code point. -/
def strLe (a b : String) : Bool := strLeAux a.data b.data

/-! ## Data model

Views of the externally owned device model, restricted to the attributes
`installation.py` reads (spec section 3). -/

/-- The pyparted constant `parted.PARTITION_NORMAL` (value 0 in pyparted's
`_ped` module). -/
def PARTITION_NORMAL : Nat := 0

/-- One low-level parted partition as seen through
`dev.disk.format.parted_disk.partitions`: its partition type code and the
result of `getFlag(parted.PARTITION_BOOT)`. -/
structure PartedPartitionSlot where
  ptype : Nat
  bootFlag : Bool
deriving DecidableEq, Repr

/-- The low-level parted disk (`dev.disk.format.parted_disk`): its label
type string and its current partitions. -/
structure PartedDisk where
  type : String
  partitions : List PartedPartitionSlot
deriving DecidableEq, Repr

/-- The disk-label format object (`dev.disk.format`). -/
structure DiskLabelFormat where
  parted_disk : PartedDisk
deriving DecidableEq, Repr

/-- Modelled from the spec: the partition-table view exposes its table type
both as `type` (on the low-level parted disk) and as `label_type`; the two
name the same value ("msdos" or "gpt").  The accessor itself lives in the
external storage library, which is not part of this repository. -/
def DiskLabelFormat.label_type (f : DiskLabelFormat) : String := f.parted_disk.type

/-- A physical disk (`dev.disk`). -/
structure Disk where
  name : String
  format : DiskLabelFormat
deriving DecidableEq, Repr

/-- A device's format (`dev.format`): its type string, its display name,
and (for LUKS formats) whether an escrow certificate is attached. -/
structure DeviceFormat where
  type : String
  name : String
  escrow_cert : Bool
deriving DecidableEq, Repr

/-- The low-level partition handle (`dev.parted_partition`, optional in
the data model): whether its disk label supports
`parted.DISK_TYPE_PARTITION_NAME`, and the name on the ped partition
(written by `set_name`). -/
structure PartedPartitionView where
  supports_partition_name : Bool
  ped_name : String
deriving DecidableEq, Repr

/-- An external storage-model device, restricted to the attributes read by
this module.  `bootable = none` models a device that lacks the `bootable`
attribute (the `hasattr(dev, "bootable")` check); `some b` models a device
whose boot flag currently holds `b`. -/
structure Device where
  name : String
  type : String
  busid : String
  path : String
  bootable : Option Bool
  disk : Disk
  format : DeviceFormat
  parted_partition : Option PartedPartitionView
deriving DecidableEq, Repr

/-- A device that may serve as the boot reference; `parents` is read only
when `type == "mdarray"`, and the members themselves are plain devices
(their own parents are never read by this module). -/
structure BootDevice extends Device where
  parents : List Device
deriving DecidableEq, Repr

/-- The bootloader configuration read by `_setup_bootable_devices`. -/
structure Bootloader where
  skip_bootloader : Bool
  stage2_bootable : Bool
  stage1_device : BootDevice
deriving DecidableEq, Repr

/-- The slice of the storage model read by this module. -/
structure StorageModel where
  bootloader : Bootloader
  boot_device : BootDevice
  devices : List Device
deriving DecidableEq, Repr

/-! ## Boot Device Marker (`_setup_bootable_devices`, lines 61-120) -/

/-- Observable effects of the Boot Device Marker. -/
inductive BootEvent where
  | logNotBootable (dev : String)
  | logSkip (dev : String)
  | setBootable (dev : String) (disk : Disk)
  | setPartName (dev : String) (label : String)
  | diskSetup (disk : Disk)
  | commitToDisk (disk : Disk)
deriving DecidableEq, Repr

/-- The exception `_setup_bootable_devices` can raise itself: dereferencing
`dev.parted_partition` when it is `None` raises `AttributeError`. -/
inductive BootErr where
  | attributeError
deriving DecidableEq, Repr

/-- Lines 89-94: on an msdos label, `skip` becomes true when some existing
low-level partition is `PARTITION_NORMAL` and carries the boot flag. -/
def msdosHasActiveNormal (d : Disk) : Bool :=
  d.format.parted_disk.type == "msdos" &&
    d.format.parted_disk.partitions.any
      (fun p => p.ptype == PARTITION_NORMAL && p.bootFlag)

/-- Lines 99-101: on a gpt label, `skip` becomes true unless the device's
own format type is "efi" or "macefi". -/
def gptNonEsp (dev : Device) : Bool :=
  dev.disk.format.label_type == "gpt" &&
    !(dev.format.type == "efi" || dev.format.type == "macefi")

/-- The combined skip decision of lines 88-101. -/
def skipCheck (dev : Device) : Bool :=
  msdosHasActiveNormal dev.disk || gptNonEsp dev

/-- Lines 108-109: `dev.bootable = True` is executed unless the parted
disk type is "gpt" and the format type is "hfs+" or "macefi". -/
def explicitSetAllowed (dev : Device) : Bool :=
  dev.disk.format.parted_disk.type != "gpt" ||
    !(dev.format.type == "hfs+" || dev.format.type == "macefi")

/-- One iteration of the `for dev in boot_devs` loop (lines 81-120):
returns the (possibly mutated) device, the effects performed, and the
exception propagated, if any. -/
def processBootDev (dev : Device) : Device × List BootEvent × Option BootErr :=
  if dev.bootable.isNone then
    (dev, [BootEvent.logNotBootable dev.name], none)
  else if skipCheck dev then
    (dev, [BootEvent.logSkip dev.name], none)
  else
    let step1 : Device × List BootEvent :=
      if explicitSetAllowed dev then
        ({ dev with bootable := some true }, [BootEvent.setBootable dev.name dev.disk])
      else (dev, [])
    match dev.parted_partition with
    | none => (step1.1, step1.2, some BootErr.attributeError)
    | some pp =>
      let step2 : Device × List BootEvent :=
        if pp.supports_partition_name then
          ({ step1.1 with parted_partition := some { pp with ped_name := dev.format.name } },
            step1.2 ++ [BootEvent.setPartName dev.name dev.format.name])
        else step1
      (step2.1, step2.2 ++ [BootEvent.diskSetup dev.disk, BootEvent.commitToDisk dev.disk], none)

/-- The `for dev in boot_devs` loop: processes candidates in order and
stops at the first propagating exception, leaving later candidates
untouched. -/
def setupLoop : List Device → List Device × List BootEvent × Option BootErr
  | [] => ([], [], none)
  | d :: ds =>
    match processBootDev d with
    | (d1, ev, some e) => (d1 :: ds, ev, some e)
    | (d1, ev, none) =>
      (d1 :: (setupLoop ds).1, ev ++ (setupLoop ds).2.1, (setupLoop ds).2.2)

/-- `_setup_bootable_devices` (lines 61-120): candidate selection
(lines 68-79) followed by the marking loop. -/
def _setup_bootable_devices (s : StorageModel) :
    List Device × List BootEvent × Option BootErr :=
  if s.bootloader.skip_bootloader then ([], [], none)
  else
    let boot := if s.bootloader.stage2_bootable then s.boot_device else s.bootloader.stage1_device
    let boot_devs := if boot.type == "mdarray" then boot.parents else [boot.toDevice]
    setupLoop boot_devs

/-! ## Installation orchestrator (`turn_on_filesystems`, lines 40-58) -/

/-- Exception kinds relevant to the `try` block of `turn_on_filesystems`:
the two blivet resize errors its `except` clause names, and any other
exception class. -/
inductive TOFExc where
  | fsResizeError
  | formatResizeError
  | otherError
deriving DecidableEq, Repr

/-- The verdicts of `pyanaconda.errors.errorHandler.cb`.  Modelled from the
spec: the pluggable error-escalation policy returns a verdict, and only the
`ERROR_RAISE` verdict causes re-raising; the constants live in
`pyanaconda/errors.py`, which is not part of this repository. -/
inductive ErrorAction where
  | ERROR_RAISE
  | ERROR_CONTINUE
  | ERROR_RETRY
deriving DecidableEq, Repr

/-- Observable steps of `turn_on_filesystems`. -/
inductive TOFEvent where
  | teardownAll
  | doIt
  | setupBootable
  | dumpStateFinal
  | consultPolicy (e : TOFExc)
  | turnOnSwap
deriving DecidableEq, Repr

/-- Whether an exception matches the `except (FSResizeError,
FormatResizeError)` clause of line 54. -/
def isResizeExc (e : TOFExc) : Bool :=
  e == TOFExc.fsResizeError || e == TOFExc.formatResizeError

/-- `turn_on_filesystems` (lines 40-58), with the outcome of
`storage.do_it(callbacks)` (the action-execution step, the raiser the
claims are about) and the escalation policy passed as parameters:
returns the executed step trace and the exception it propagates, if any.
When `do_it` raises, the marker step and the state dump do not run; a
matched resize error is passed to `error_handler.cb` and re-raised only on
the `ERROR_RAISE` verdict; any other exception propagates without
consulting the policy.  `storage.turn_on_swap()` (line 58) runs whenever
no exception propagates. -/
def turn_on_filesystems (doItResult : Option TOFExc) (cb : TOFExc → ErrorAction) :
    List TOFEvent × Option TOFExc :=
  match doItResult with
  | none =>
    ([TOFEvent.teardownAll, TOFEvent.doIt, TOFEvent.setupBootable,
      TOFEvent.dumpStateFinal, TOFEvent.turnOnSwap], none)
  | some e =>
    if isResizeExc e then
      if cb e == ErrorAction.ERROR_RAISE then
        ([TOFEvent.teardownAll, TOFEvent.doIt, TOFEvent.consultPolicy e], some e)
      else
        ([TOFEvent.teardownAll, TOFEvent.doIt, TOFEvent.consultPolicy e,
          TOFEvent.turnOnSwap], none)
    else
      ([TOFEvent.teardownAll, TOFEvent.doIt], some e)

/-! ## Escrow Writer (`_write_escrow_packets`, lines 123-156) -/

/-- Exception classes relevant to the Escrow Writer's `except (IOError,
RuntimeError)` clause: the two caught classes and any other class. -/
inductive ExcKind where
  | ioError
  | runtimeError
  | otherExc
deriving DecidableEq, Repr

/-- Observable effects of the Escrow Writer. -/
inductive EscrowEvent where
  | logStart
  | genBackupPassphrase
  | logEscrowDir (dir : String)
  | makedirs (dir : String)
  | escrowWrite (path : String)
  | logStoreFailed
  | logDone
deriving DecidableEq, Repr

/-- The `for device in escrow_devices` loop (lines 146-150): each
`device.format.escrow(...)` call is attempted in order until one raises,
with the raising behaviour supplied by `escrowFail`. -/
def escrowLoop (escrowFail : Device → Option ExcKind) :
    List Device → List EscrowEvent × Option ExcKind
  | [] => ([], none)
  | d :: ds =>
    match escrowFail d with
    | some k => ([EscrowEvent.escrowWrite d.path], some k)
    | none =>
      ((EscrowEvent.escrowWrite d.path) :: (escrowLoop escrowFail ds).1,
        (escrowLoop escrowFail ds).2)

/-- Whether an exception matches the `except (IOError, RuntimeError)`
clause of line 152. -/
def caughtByEscrowHandler (k : ExcKind) : Bool :=
  k == ExcKind.ioError || k == ExcKind.runtimeError

/-- `_write_escrow_packets` (lines 123-156), with the raising behaviour of
`blivet_util.makedirs` and of each device's `format.escrow` passed as
parameters: returns the performed effects and the exception propagated, if
any.  An `IOError` or `RuntimeError` from the `try` block is logged at
error level and swallowed; other classes propagate (and the final debug
log is then never reached). -/
def _write_escrow_packets (devices : List Device) (sysroot : String)
    (mkdirsFail : Option ExcKind) (escrowFail : Device → Option ExcKind) :
    List EscrowEvent × Option ExcKind :=
  let escrow_devices := devices.filter
    (fun d => d.format.type == "luks" && d.format.escrow_cert)
  if escrow_devices.isEmpty then ([], none)
  else
    let escrow_dir := sysroot ++ "/root"
    let tryRun : List EscrowEvent × Option ExcKind :=
      match mkdirsFail with
      | some k => ([EscrowEvent.logEscrowDir escrow_dir, EscrowEvent.makedirs escrow_dir], some k)
      | none =>
        ((EscrowEvent.logEscrowDir escrow_dir) :: (EscrowEvent.makedirs escrow_dir) ::
            (escrowLoop escrowFail escrow_devices).1,
          (escrowLoop escrowFail escrow_devices).2)
    let pre := [EscrowEvent.logStart, EscrowEvent.genBackupPassphrase]
    match tryRun.2 with
    | none => (pre ++ tryRun.1 ++ [EscrowEvent.logDone], none)
    | some k =>
      if caughtByEscrowHandler k then
        (pre ++ tryRun.1 ++ [EscrowEvent.logStoreFailed, EscrowEvent.logDone], none)
      else
        (pre ++ tryRun.1, some k)

/-! ## DASD Config Writer (`_write_dasd_conf`, lines 188-236) -/

/-- The order `dasds.sort(key=lambda d: d.name)` sorts by: comparison of
device names. -/
def devNameLe (a b : Device) : Prop := strLe a.name b.name = true

instance : DecidableRel devNameLe := fun a b => by
  unfold devNameLe
  infer_instance

/-- Lines 197-198: the devices of type "dasd", sorted by name.  Python's
`list.sort` is a stable sort keyed by `d.name`; any stable sort by the
same key computes the same list, so it is embedded as a stable insertion
sort. -/
def sortedDasds (devices : List Device) : List Device :=
  (devices.filter (fun d => d.type == "dasd")).insertionSort devNameLe

/-- The stanza text of lines 211 and 236. -/
def zdevStanzaText (driver busid : String) : String :=
  "[persistent " ++ driver ++ " " ++ busid ++ "]\nonline=1\n\n"

/-- The `(driver, busid)` stanzas written to `zdev.conf` by the main loop
(lines 208-211), in writing order; `driverOf` resolves the sysfs driver
symlink for a bus id. -/
def mainZdevStanzas (driverOf : String → String) (devices : List Device) :
    List (String × String) :=
  (sortedDasds devices).map (fun d => (driverOf d.busid, d.busid))

/-- Observable effects of the DASD Config Writer: file writes and sysfs
reads. -/
inductive DasdEvent where
  | truncateDasdConf
  | readDriverLink (busid : String)
  | writeZdevStanza (driver : String) (busid : String)
  | checkEckdSysfs
  | readAliasFile (entry : String)
  | writeAliasStanza (entry : String)
deriving DecidableEq, Repr

/-- `_write_dasd_conf` (lines 188-236), with the environment (architecture
check, sysfs contents) passed as parameters: returns the sequence of file
writes and sysfs reads performed.  Unless the architecture is s390 and at
least one "dasd" device exists, it returns before any effect. -/
def _write_dasd_conf (is_s390 : Bool) (devices : List Device)
    (driverOf : String → String) (eckdSysfsExists : Bool)
    (sysfsEntries : List String) (aliasContent : String → String) :
    List DasdEvent :=
  let dasds := sortedDasds devices
  if !(is_s390 && !dasds.isEmpty) then []
  else
    (DasdEvent.truncateDasdConf ::
      dasds.flatMap (fun d =>
        [DasdEvent.readDriverLink d.busid,
         DasdEvent.writeZdevStanza (driverOf d.busid) d.busid]))
      ++ (DasdEvent.checkEckdSysfs ::
        (if !eckdSysfsExists then []
         else (sysfsEntries.filter (fun e => e.startsWith "0.0")).flatMap (fun e =>
           DasdEvent.readAliasFile e ::
             (if aliasContent e == "1" then [DasdEvent.writeAliasStanza e] else []))))

/-! ## Concrete sample data used by witnesses and counterexamples -/

/-- A GPT-labeled disk with no existing partitions. -/
def gptDisk : Disk :=
  { name := "sda", format := { parted_disk := { type := "gpt", partitions := [] } } }

/-- An msdos-labeled disk with one normal, non-active partition. -/
def msdosDiskClean : Disk :=
  { name := "sdb",
    format := { parted_disk :=
      { type := "msdos", partitions := [{ ptype := 0, bootFlag := false }] } } }

/-- An msdos-labeled disk that already contains a normal partition with the
boot flag set (a coexisting OS's active partition). -/
def msdosDiskActive : Disk :=
  { name := "sdc",
    format := { parted_disk :=
      { type := "msdos", partitions := [{ ptype := 0, bootFlag := true }] } } }

/-- A macefi-formatted candidate on a GPT disk. -/
def macefiDev : Device :=
  { name := "sda1", type := "partition", busid := "", path := "/dev/sda1",
    bootable := some false, disk := gptDisk,
    format := { type := "macefi", name := "Apple EFI", escrow_cert := false },
    parted_partition := some { supports_partition_name := false, ped_name := "" } }

/-- An efi-formatted candidate on a GPT disk. -/
def efiDev : Device :=
  { name := "sda2", type := "partition", busid := "", path := "/dev/sda2",
    bootable := some false, disk := gptDisk,
    format := { type := "efi", name := "EFI System Partition", escrow_cert := false },
    parted_partition := some { supports_partition_name := true, ped_name := "" } }

/-- An hfs+-formatted candidate on a GPT disk. -/
def hfsDev : Device :=
  { name := "sda3", type := "partition", busid := "", path := "/dev/sda3",
    bootable := some false, disk := gptDisk,
    format := { type := "hfs+", name := "h", escrow_cert := false },
    parted_partition := some { supports_partition_name := true, ped_name := "" } }

/-- An ext4 format descriptor. -/
def plainFmt : DeviceFormat := { type := "ext4", name := "root", escrow_cert := false }

/-- A candidate with a `bootable` attribute but no `parted_partition`
handle, on a clean msdos disk. -/
def noPartedDev : Device :=
  { name := "sdb1", type := "partition", busid := "", path := "/dev/sdb1",
    bootable := some false, disk := msdosDiskClean, format := plainFmt,
    parted_partition := none }

/-- A device lacking the `bootable` attribute. -/
def noAttrDev : Device :=
  { name := "md0", type := "mdarray", busid := "", path := "/dev/md0",
    bootable := none, disk := msdosDiskClean, format := plainFmt,
    parted_partition := none }

/-- A candidate (with `bootable` attribute) on the msdos disk that already
has an active partition. -/
def msdosActiveDev : Device :=
  { name := "sdc1", type := "partition", busid := "", path := "/dev/sdc1",
    bootable := some false, disk := msdosDiskActive, format := plainFmt,
    parted_partition := some { supports_partition_name := false, ped_name := "" } }

/-- A DASD device named "dasda". -/
def dasdA : Device :=
  { name := "dasda", type := "dasd", busid := "0.0.0100", path := "/dev/dasda",
    bootable := none, disk := msdosDiskClean, format := plainFmt,
    parted_partition := none }

/-- A DASD device named "dasdb". -/
def dasdB : Device :=
  { name := "dasdb", type := "dasd", busid := "0.0.0101", path := "/dev/dasdb",
    bootable := none, disk := msdosDiskClean, format := plainFmt,
    parted_partition := none }

/-- A second DASD device that shares the name "dasda" with `dasdA` but has
a different bus id. -/
def dasdDupA : Device :=
  { name := "dasda", type := "dasd", busid := "0.0.0200", path := "/dev/dasda",
    bootable := none, disk := msdosDiskClean, format := plainFmt,
    parted_partition := none }

/-- A LUKS device with an escrow certificate. -/
def luksDev : Device :=
  { name := "luks1", type := "luks/dm-crypt", busid := "", path := "/dev/mapper/luks1",
    bootable := none, disk := msdosDiskClean,
    format := { type := "luks", name := "luks1", escrow_cert := true },
    parted_partition := none }

/-! ## Claim C3 -/

/-- Claim C3: in `turn_on_filesystems`, an `FSResizeError` or
`FormatResizeError` from the action-execution step is passed to the
error-escalation policy: the `ERROR_RAISE` verdict re-raises it, any other
verdict swallows it and installation proceeds (swap activation still
runs); an exception of any other kind propagates without the policy being
consulted. -/
theorem resize_error_policy_routing (e : TOFExc) (cb : TOFExc → ErrorAction) :
    (isResizeExc e = true →
      (cb e = ErrorAction.ERROR_RAISE →
        turn_on_filesystems (some e) cb =
          ([TOFEvent.teardownAll, TOFEvent.doIt, TOFEvent.consultPolicy e], some e)) ∧
      (cb e ≠ ErrorAction.ERROR_RAISE →
        turn_on_filesystems (some e) cb =
          ([TOFEvent.teardownAll, TOFEvent.doIt, TOFEvent.consultPolicy e,
            TOFEvent.turnOnSwap], none))) ∧
    (isResizeExc e = false →
      turn_on_filesystems (some e) cb = ([TOFEvent.teardownAll, TOFEvent.doIt], some e)) := by
  refine ⟨fun hres => ⟨fun hcb => ?_, fun hcb => ?_⟩, fun hres => ?_⟩
  · simp [turn_on_filesystems, hres, hcb]
  · have hb : (cb e == ErrorAction.ERROR_RAISE) = false := by
      simpa using hcb
    simp [turn_on_filesystems, hres, hb]
  · simp [turn_on_filesystems, hres]

/-- Witness for C3: a concrete `FSResizeError` with a policy that answers
`ERROR_RAISE` is re-raised after consulting the policy. -/
theorem resize_error_policy_routing_witness :
    turn_on_filesystems (some TOFExc.fsResizeError) (fun _ => ErrorAction.ERROR_RAISE) =
      ([TOFEvent.teardownAll, TOFEvent.doIt, TOFEvent.consultPolicy TOFExc.fsResizeError],
        some TOFExc.fsResizeError) :=
  ((resize_error_policy_routing TOFExc.fsResizeError
      (fun _ => ErrorAction.ERROR_RAISE)).1 (by decide)).1 rfl

/-! ## Claim C9 -/

/-- Claim C9: when a resize error raised by `storage.do_it` is handled
(verdict other than `ERROR_RAISE`), the boot-device marking step and the
final state dump are skipped for that run, while `storage.turn_on_swap()`
still runs and no exception propagates. -/
theorem handled_resize_skips_marking (e : TOFExc) (cb : TOFExc → ErrorAction)
    (hres : isResizeExc e = true) (hcb : cb e ≠ ErrorAction.ERROR_RAISE) :
    TOFEvent.setupBootable ∉ (turn_on_filesystems (some e) cb).1 ∧
    TOFEvent.dumpStateFinal ∉ (turn_on_filesystems (some e) cb).1 ∧
    TOFEvent.turnOnSwap ∈ (turn_on_filesystems (some e) cb).1 ∧
    (turn_on_filesystems (some e) cb).2 = none := by
  have hb : (cb e == ErrorAction.ERROR_RAISE) = false := by
    simpa using hcb
  simp [turn_on_filesystems, hres, hb]

/-- Witness for C9: a concrete handled `FormatResizeError`. -/
theorem handled_resize_skips_marking_witness :
    TOFEvent.setupBootable ∉
      (turn_on_filesystems (some TOFExc.formatResizeError)
        (fun _ => ErrorAction.ERROR_CONTINUE)).1 ∧
    TOFEvent.dumpStateFinal ∉
      (turn_on_filesystems (some TOFExc.formatResizeError)
        (fun _ => ErrorAction.ERROR_CONTINUE)).1 ∧
    TOFEvent.turnOnSwap ∈
      (turn_on_filesystems (some TOFExc.formatResizeError)
        (fun _ => ErrorAction.ERROR_CONTINUE)).1 ∧
    (turn_on_filesystems (some TOFExc.formatResizeError)
      (fun _ => ErrorAction.ERROR_CONTINUE)).2 = none :=
  handled_resize_skips_marking TOFExc.formatResizeError
    (fun _ => ErrorAction.ERROR_CONTINUE) (by decide) (by decide)

/-! ## Claim C8 -/

/-- Claim C8: `_write_dasd_conf` performs no file write and no sysfs read
unless the architecture is s390 and at least one device of type "dasd"
exists; when either condition fails it returns without side effects. -/
theorem dasd_conf_noop_unless_s390_and_dasds (is_s390 : Bool) (devices : List Device)
    (driverOf : String → String) (eckdSysfsExists : Bool) (sysfsEntries : List String)
    (aliasContent : String → String)
    (h : is_s390 = false ∨ devices.filter (fun d => d.type == "dasd") = []) :
    _write_dasd_conf is_s390 devices driverOf eckdSysfsExists sysfsEntries aliasContent = [] := by
  rcases h with h | h
  · subst h
    simp [_write_dasd_conf]
  · simp [_write_dasd_conf, sortedDasds, h, List.insertionSort]

/-- Witness for C8: on a non-s390 architecture the writer emits nothing,
even with a DASD device present. -/
theorem dasd_conf_noop_witness :
    _write_dasd_conf false [dasdA] (fun _ => "dasd-eckd") true ["0.0.0100"]
      (fun _ => "0") = [] :=
  dasd_conf_noop_unless_s390_and_dasds false [dasdA] (fun _ => "dasd-eckd") true
    ["0.0.0100"] (fun _ => "0") (Or.inl rfl)

/-! ## Claim C6 -/

/-- Claim C6: a candidate lacking the `bootable` attribute is never
mutated by the Boot Device Marker: the iteration only emits the
"not bootable" log message and the loop continues with the next
candidate. -/
theorem no_bootable_attr_no_mutation (dev : Device) (ds : List Device)
    (h : dev.bootable = none) :
    processBootDev dev = (dev, [BootEvent.logNotBootable dev.name], none) ∧
    setupLoop (dev :: ds) =
      (dev :: (setupLoop ds).1, BootEvent.logNotBootable dev.name :: (setupLoop ds).2.1,
        (setupLoop ds).2.2) := by
  have h1 : processBootDev dev = (dev, [BootEvent.logNotBootable dev.name], none) := by
    simp [processBootDev, h]
  refine ⟨h1, ?_⟩
  simp [setupLoop, h1]

/-- Witness for C6: a concrete mdarray device with no `bootable`
attribute passes through unchanged with only a log. -/
theorem no_bootable_attr_no_mutation_witness :
    processBootDev noAttrDev = (noAttrDev, [BootEvent.logNotBootable noAttrDev.name], none) :=
  (no_bootable_attr_no_mutation noAttrDev [] rfl).1

/-! ## Claim C5 -/

/-- The escrow loop only propagates exception kinds produced by some
device's escrow operation. -/
theorem escrowLoop_no_other (escrowFail : Device → Option ExcKind)
    (hesc : ∀ d, escrowFail d ≠ some ExcKind.otherExc) (l : List Device) :
    (escrowLoop escrowFail l).2 ≠ some ExcKind.otherExc := by
  induction l with
  | nil => simp [escrowLoop]
  | cons d ds ih =>
    cases hf : escrowFail d with
    | none => simpa [escrowLoop, hf] using ih
    | some k =>
      have hd := hesc d
      rw [hf] at hd
      simpa [escrowLoop, hf] using hd

/-- Exception kinds other than `otherExc` match the `except (IOError,
RuntimeError)` clause. -/
theorem caught_of_ne_other (k : ExcKind) (h : k ≠ ExcKind.otherExc) :
    caughtByEscrowHandler k = true := by
  cases k <;> simp_all [caughtByEscrowHandler]

/-- Claim C5: every `IOError` or `RuntimeError` raised by escrow-directory
creation or by a device's escrow operation is caught by the Escrow Writer,
logged at error level, and swallowed: no such failure propagates out of
`_write_escrow_packets`. -/
theorem escrow_errors_swallowed (devices : List Device) (sysroot : String)
    (mkdirsFail : Option ExcKind) (escrowFail : Device → Option ExcKind)
    (hmk : mkdirsFail ≠ some ExcKind.otherExc)
    (hesc : ∀ d, escrowFail d ≠ some ExcKind.otherExc) :
    (_write_escrow_packets devices sysroot mkdirsFail escrowFail).2 = none ∧
    ((mkdirsFail.isSome ∨
        (escrowLoop escrowFail (devices.filter
          (fun d => d.format.type == "luks" && d.format.escrow_cert))).2.isSome) →
      (devices.filter (fun d => d.format.type == "luks" && d.format.escrow_cert)).isEmpty
          = false →
      EscrowEvent.logStoreFailed ∈ (_write_escrow_packets devices sysroot mkdirsFail escrowFail).1) := by
  by_cases hF : (devices.filter (fun d => d.format.type == "luks" && d.format.escrow_cert)).isEmpty
  · constructor
    · simp [_write_escrow_packets, hF]
    · intro _ hne
      rw [hF] at hne
      exact absurd hne (by simp)
  · have hF' : (devices.filter (fun d => d.format.type == "luks" && d.format.escrow_cert)).isEmpty
        = false := by
      simpa using hF
    cases hmkc : mkdirsFail with
    | some k =>
      have hk : k ≠ ExcKind.otherExc := by
        rw [hmkc] at hmk
        simpa using hmk
      have hc := caught_of_ne_other k hk
      constructor
      · simp [_write_escrow_packets, hF', hmkc, hc]
      · intro _ _
        simp [_write_escrow_packets, hF', hmkc, hc]
    | none =>
      cases hl : (escrowLoop escrowFail
          (devices.filter (fun d => d.format.type == "luks" && d.format.escrow_cert))).2 with
      | none =>
        constructor
        · simp [_write_escrow_packets, hF', hl]
        · intro habs _
          simp [hl] at habs
      | some k =>
        have hk : k ≠ ExcKind.otherExc := by
          have := escrowLoop_no_other escrowFail hesc
            (devices.filter (fun d => d.format.type == "luks" && d.format.escrow_cert))
          rw [hl] at this
          simpa using this
        have hc := caught_of_ne_other k hk
        constructor
        · simp [_write_escrow_packets, hF', hl, hc]
        · intro _ _
          simp [_write_escrow_packets, hF', hl, hc]

/-- Witness for C5: an `IOError` from `makedirs` with one escrow device is
logged and swallowed. -/
theorem escrow_errors_swallowed_witness :
    (_write_escrow_packets [luksDev] "/mnt/sysroot" (some ExcKind.ioError) (fun _ => none)).2
        = none ∧
    EscrowEvent.logStoreFailed ∈
      (_write_escrow_packets [luksDev] "/mnt/sysroot" (some ExcKind.ioError)
        (fun _ => none)).1 := by
  have h := escrow_errors_swallowed [luksDev] "/mnt/sysroot" (some ExcKind.ioError)
    (fun _ => none) (by simp) (fun _ => by simp)
  exact ⟨h.1, h.2 (Or.inl rfl) (by decide)⟩

/-! ## Claim C10 -/

/-- Claim C10: a candidate with a `bootable` attribute that passes both
skip checks but has no `parted_partition` handle makes the Boot Device
Marker raise an unhandled `AttributeError` at the partition-naming step,
before any `disk.setup()` or `commit_to_disk()` call, and the loop
propagates the error. -/
theorem missing_parted_partition_fatal (dev : Device) (ds : List Device)
    (hattr : dev.bootable.isSome) (hskip : skipCheck dev = false)
    (hpp : dev.parted_partition = none) :
    (processBootDev dev).2.2 = some BootErr.attributeError ∧
    (∀ ev ∈ (processBootDev dev).2.1,
      (∀ D, ev ≠ BootEvent.diskSetup D) ∧ ∀ D, ev ≠ BootEvent.commitToDisk D) ∧
    (setupLoop (dev :: ds)).2.2 = some BootErr.attributeError := by
  have hn : dev.bootable.isNone = false := by
    cases hb : dev.bootable
    · rw [hb] at hattr
      simp at hattr
    · simp
  by_cases hx : explicitSetAllowed dev = true
  · have h0 : processBootDev dev =
        ({ dev with bootable := some true },
          [BootEvent.setBootable dev.name dev.disk], some BootErr.attributeError) := by
      simp [processBootDev, hn, hskip, hpp, hx]
    refine ⟨by simp [h0], ?_, by simp [setupLoop, h0]⟩
    intro ev hev
    simp [h0] at hev
    subst hev
    simp
  · have hx' : explicitSetAllowed dev = false := by simpa using hx
    have h0 : processBootDev dev = (dev, [], some BootErr.attributeError) := by
      simp [processBootDev, hn, hskip, hpp, hx']
    refine ⟨by simp [h0], ?_, by simp [setupLoop, h0]⟩
    intro ev hev
    simp [h0] at hev

/-- Witness for C10: a concrete non-skipped msdos candidate without a
`parted_partition` handle hits the fatal error. -/
theorem missing_parted_partition_fatal_witness :
    (processBootDev noPartedDev).2.2 = some BootErr.attributeError ∧
    (setupLoop [noPartedDev]).2.2 = some BootErr.attributeError := by
  have h := missing_parted_partition_fatal noPartedDev [] (by decide) (by decide) rfl
  exact ⟨h.1, h.2.2⟩

/-! ## Claim C1 -/

/-- Counterexample to claim C1 as stated: `macefiDev` sits on a
GPT-labeled disk and its format type is "macefi", yet the marker never
assigns its bootable flag (it stays `some false` and no `setBootable`
effect occurs); the device is still processed (its disk is set up and
committed), so it is not skipped either.  This refutes "bootable is set to
True if and only if the format type is efi or macefi". -/
theorem C1_counterexample :
    macefiDev.disk.format.label_type = "gpt" ∧
    macefiDev.format.type = "macefi" ∧
    macefiDev.bootable = some false ∧
    processBootDev macefiDev =
      (macefiDev,
        [BootEvent.diskSetup macefiDev.disk, BootEvent.commitToDisk macefiDev.disk],
        none) := by
  refine ⟨rfl, rfl, rfl, ?_⟩
  decide

/-- Claim C1, amended: for a candidate with a `bootable` attribute on a
GPT-labeled disk, the marker performs the `bootable = True` assignment if
and only if the format type is "efi"; every candidate whose format type is
neither "efi" nor "macefi" is skipped and never mutated (a "macefi"
candidate is not skipped, but its assignment is suppressed). -/
theorem gpt_bootable_set_iff_efi (dev : Device)
    (hgpt : dev.disk.format.label_type = "gpt") (hattr : dev.bootable.isSome) :
    ((BootEvent.setBootable dev.name dev.disk ∈ (processBootDev dev).2.1) ↔
      dev.format.type = "efi") ∧
    (dev.format.type ≠ "efi" → dev.format.type ≠ "macefi" →
      processBootDev dev = (dev, [BootEvent.logSkip dev.name], none)) := by
  have hpt : dev.disk.format.parted_disk.type = "gpt" := hgpt
  have hn : dev.bootable.isNone = false := by
    cases hb : dev.bootable
    · rw [hb] at hattr
      simp at hattr
    · simp
  have hms : msdosHasActiveNormal dev.disk = false := by
    simp [msdosHasActiveNormal, hpt]
  by_cases hefi : dev.format.type = "efi"
  · have hskip : skipCheck dev = false := by
      simp [skipCheck, hms, gptNonEsp, hefi]
    have hset : explicitSetAllowed dev = true := by
      simp [explicitSetAllowed, hpt, hefi]
    refine ⟨⟨fun _ => hefi, fun _ => ?_⟩, fun hne _ => absurd hefi hne⟩
    cases hp : dev.parted_partition with
    | none => simp [processBootDev, hn, hskip, hset, hp]
    | some pp =>
      by_cases hsn : pp.supports_partition_name = true
      · simp [processBootDev, hn, hskip, hset, hp, hsn]
      · have hsn' : pp.supports_partition_name = false := by simpa using hsn
        simp [processBootDev, hn, hskip, hset, hp, hsn']
  · by_cases hmac : dev.format.type = "macefi"
    · have hskip : skipCheck dev = false := by
        simp [skipCheck, hms, gptNonEsp, hmac]
      have hset : explicitSetAllowed dev = false := by
        simp [explicitSetAllowed, hpt, hmac]
      refine ⟨⟨fun hmem => ?_, fun h => absurd h hefi⟩, fun _ hne => absurd hmac hne⟩
      exfalso
      cases hp : dev.parted_partition with
      | none => simp [processBootDev, hn, hskip, hset, hp] at hmem
      | some pp =>
        by_cases hsn : pp.supports_partition_name = true
        · simp [processBootDev, hn, hskip, hset, hp, hsn] at hmem
        · have hsn' : pp.supports_partition_name = false := by simpa using hsn
          simp [processBootDev, hn, hskip, hset, hp, hsn'] at hmem
    · have hskip : skipCheck dev = true := by
        simp [skipCheck, gptNonEsp, hgpt, hefi, hmac]
      have h0 : processBootDev dev = (dev, [BootEvent.logSkip dev.name], none) := by
        simp [processBootDev, hn, hskip]
      refine ⟨⟨fun hmem => ?_, fun h => absurd h hefi⟩, fun _ _ => h0⟩
      rw [h0] at hmem
      simp at hmem

/-- Witness for the amended C1: the concrete efi candidate on a GPT disk
does receive the bootable assignment. -/
theorem gpt_bootable_set_iff_efi_witness :
    BootEvent.setBootable efiDev.name efiDev.disk ∈ (processBootDev efiDev).2.1 :=
  ((gpt_bootable_set_iff_efi efiDev rfl (by decide)).1).mpr rfl

/-! ## Claim C2 -/

/-- Counterexample to claim C2 as stated: `hfsDev` is an "hfs+" candidate
on a GPT disk, but it does not reach the explicit-set step — it fails the
GPT skip check (its format is not "efi"/"macefi") and the iteration ends
at the skip step with only a log. -/
theorem C2_counterexample :
    hfsDev.disk.format.label_type = "gpt" ∧
    hfsDev.format.type = "hfs+" ∧
    skipCheck hfsDev = true ∧
    processBootDev hfsDev = (hfsDev, [BootEvent.logSkip hfsDev.name], none) := by
  refine ⟨rfl, rfl, ?_, ?_⟩ <;> decide

/-- Claim C2, amended: on a GPT-labeled disk the `bootable = True`
assignment is never performed for format types "hfs+" and "macefi", but
for different reasons: an "hfs+" candidate fails the skip check and is
skipped outright, while a "macefi" candidate passes both skip checks and
has the assignment suppressed at the explicit-set step (its bootable value
is left unchanged). -/
theorem gpt_hfs_macefi_never_assigned (dev : Device)
    (hgpt : dev.disk.format.label_type = "gpt") (hattr : dev.bootable.isSome) :
    (dev.format.type = "hfs+" →
      skipCheck dev = true ∧
      processBootDev dev = (dev, [BootEvent.logSkip dev.name], none)) ∧
    (dev.format.type = "macefi" →
      skipCheck dev = false ∧
      (processBootDev dev).1.bootable = dev.bootable ∧
      BootEvent.setBootable dev.name dev.disk ∉ (processBootDev dev).2.1) := by
  have hpt : dev.disk.format.parted_disk.type = "gpt" := hgpt
  have hn : dev.bootable.isNone = false := by
    cases hb : dev.bootable
    · rw [hb] at hattr
      simp at hattr
    · simp
  have hms : msdosHasActiveNormal dev.disk = false := by
    simp [msdosHasActiveNormal, hpt]
  constructor
  · intro hhfs
    have hskip : skipCheck dev = true := by
      simp [skipCheck, gptNonEsp, hgpt, hhfs]
    exact ⟨hskip, by simp [processBootDev, hn, hskip]⟩
  · intro hmac
    have hskip : skipCheck dev = false := by
      simp [skipCheck, hms, gptNonEsp, hmac]
    have hset : explicitSetAllowed dev = false := by
      simp [explicitSetAllowed, hpt, hmac]
    refine ⟨hskip, ?_, ?_⟩
    · cases hp : dev.parted_partition with
      | none => simp [processBootDev, hn, hskip, hset, hp]
      | some pp =>
        by_cases hsn : pp.supports_partition_name = true
        · simp [processBootDev, hn, hskip, hset, hp, hsn]
        · have hsn' : pp.supports_partition_name = false := by simpa using hsn
          simp [processBootDev, hn, hskip, hset, hp, hsn']
    · intro hmem
      cases hp : dev.parted_partition with
      | none => simp [processBootDev, hn, hskip, hset, hp] at hmem
      | some pp =>
        by_cases hsn : pp.supports_partition_name = true
        · simp [processBootDev, hn, hskip, hset, hp, hsn] at hmem
        · have hsn' : pp.supports_partition_name = false := by simpa using hsn
          simp [processBootDev, hn, hskip, hset, hp, hsn'] at hmem

/-- Witness for the amended C2: the concrete macefi candidate passes both
skip checks yet keeps its bootable value, with no assignment effect. -/
theorem gpt_hfs_macefi_never_assigned_witness :
    skipCheck macefiDev = false ∧
    (processBootDev macefiDev).1.bootable = macefiDev.bootable ∧
    BootEvent.setBootable macefiDev.name macefiDev.disk ∉ (processBootDev macefiDev).2.1 :=
  (gpt_hfs_macefi_never_assigned macefiDev rfl (by decide)).2 rfl

/-! ## Claim C4 -/

/-- Every effect of one marker iteration either carries no disk or carries
the processed device's own containing disk. -/
theorem processBootDev_events_shape (dev : Device) (ev : BootEvent)
    (hev : ev ∈ (processBootDev dev).2.1) :
    ev = BootEvent.logNotBootable dev.name ∨ ev = BootEvent.logSkip dev.name ∨
    ev = BootEvent.setBootable dev.name dev.disk ∨
    ev = BootEvent.setPartName dev.name dev.format.name ∨
    ev = BootEvent.diskSetup dev.disk ∨ ev = BootEvent.commitToDisk dev.disk := by
  by_cases hn : dev.bootable.isNone = true
  · simp [processBootDev, hn] at hev
    simp [hev]
  · have hn' : dev.bootable.isNone = false := by
      cases h : dev.bootable.isNone
      · rfl
      · exact absurd h hn
    by_cases hs : skipCheck dev = true
    · simp [processBootDev, hn', hs] at hev
      simp [hev]
    · have hs' : skipCheck dev = false := by simpa using hs
      cases hp : dev.parted_partition with
      | none =>
        by_cases hx : explicitSetAllowed dev = true
        · simp [processBootDev, hn', hs', hp, hx] at hev
          simp [hev]
        · have hx' : explicitSetAllowed dev = false := by simpa using hx
          simp [processBootDev, hn', hs', hp, hx'] at hev
      | some pp =>
        by_cases hsn : pp.supports_partition_name = true
        all_goals by_cases hx : explicitSetAllowed dev = true
        · simp [processBootDev, hn', hs', hp, hsn, hx] at hev
          rcases hev with rfl | rfl | rfl | rfl <;> simp
        · have hx' : explicitSetAllowed dev = false := by simpa using hx
          simp [processBootDev, hn', hs', hp, hsn, hx'] at hev
          rcases hev with rfl | rfl | rfl <;> simp
        · have hsn' : pp.supports_partition_name = false := by simpa using hsn
          simp [processBootDev, hn', hs', hp, hsn', hx] at hev
          rcases hev with rfl | rfl | rfl <;> simp
        · have hsn' : pp.supports_partition_name = false := by simpa using hsn
          have hx' : explicitSetAllowed dev = false := by simpa using hx
          simp [processBootDev, hn', hs', hp, hsn', hx'] at hev
          rcases hev with rfl | rfl <;> simp

/-- A candidate whose containing disk already holds an active normal msdos
partition passes through one iteration unchanged: only a log is emitted
and no exception is raised. -/
theorem processBootDev_skipped (dev : Device) (h : msdosHasActiveNormal dev.disk = true) :
    (processBootDev dev).1 = dev ∧
    ((processBootDev dev).2.1 = [BootEvent.logNotBootable dev.name] ∨
      (processBootDev dev).2.1 = [BootEvent.logSkip dev.name]) ∧
    (processBootDev dev).2.2 = none := by
  by_cases hn : dev.bootable.isNone = true
  · simp [processBootDev, hn]
  · have hn' : dev.bootable.isNone = false := by
      cases hb : dev.bootable.isNone
      · rfl
      · exact absurd hb hn
    have hs : skipCheck dev = true := by
      simp [skipCheck, h]
    simp [processBootDev, hn', hs]

/-- No effect of one marker iteration names a foreign pre-flagged msdos
disk: any `setBootable`, `diskSetup` or `commitToDisk` effect targeting a
disk that already holds an active normal partition can only come from a
device on that very disk, and such a device is skipped. -/
theorem processBootDev_no_touch_active (dev : Device) (D : Disk)
    (hD : msdosHasActiveNormal D = true) (ev : BootEvent)
    (hev : ev ∈ (processBootDev dev).2.1) :
    (∀ n, ev ≠ BootEvent.setBootable n D) ∧
    ev ≠ BootEvent.diskSetup D ∧ ev ≠ BootEvent.commitToDisk D := by
  by_cases hdD : dev.disk = D
  · obtain ⟨-, hevts, -⟩ := processBootDev_skipped dev (by rw [hdD]; exact hD)
    rcases hevts with he | he <;> rw [he] at hev <;> simp at hev <;> subst hev <;> simp
  · have hne : dev.disk ≠ D := hdD
    have hshape := processBootDev_events_shape dev ev hev
    rcases hshape with rfl | rfl | rfl | rfl | rfl | rfl <;> simp [hne]

/-- Claim C4: for a disk whose msdos table already contains a
`PARTITION_NORMAL` partition with the boot flag set, every candidate on
that disk is skipped without mutation (with only a log if it has a
`bootable` attribute), and the whole marking run emits no `setBootable`,
`disk.setup()` or `commit_to_disk()` effect against that disk — so the run
adds no boot flag to the disk and its at-most-one-active-partition state
is preserved. -/
theorem msdos_active_partition_preserved (D : Disk) (devs : List Device)
    (hD : msdosHasActiveNormal D = true) :
    (∀ dev ∈ devs, dev.disk = D → (processBootDev dev).1 = dev) ∧
    (∀ dev ∈ devs, dev.disk = D → dev.bootable.isSome →
      processBootDev dev = (dev, [BootEvent.logSkip dev.name], none)) ∧
    (∀ ev ∈ (setupLoop devs).2.1,
      (∀ n, ev ≠ BootEvent.setBootable n D) ∧
      ev ≠ BootEvent.diskSetup D ∧ ev ≠ BootEvent.commitToDisk D) := by
  refine ⟨?_, ?_, ?_⟩
  · intro dev _ hdev
    exact (processBootDev_skipped dev (by rw [hdev]; exact hD)).1
  · intro dev _ hdev hattr
    have hn : dev.bootable.isNone = false := by
      cases hb : dev.bootable
      · rw [hb] at hattr
        simp at hattr
      · simp
    have hDa : msdosHasActiveNormal dev.disk = true := by
      rw [hdev]
      exact hD
    have hs : skipCheck dev = true := by
      simp [skipCheck, hDa]
    simp [processBootDev, hn, hs]
  · induction devs with
    | nil =>
      intro ev hev
      simp [setupLoop] at hev
    | cons d ds ih =>
      intro ev hev
      rcases hres : processBootDev d with ⟨d1, evd, err⟩
      cases err with
      | some e =>
        simp [setupLoop, hres] at hev
        exact processBootDev_no_touch_active d D hD ev (by rw [hres]; exact hev)
      | none =>
        simp [setupLoop, hres] at hev
        rcases hev with hev | hev
        · exact processBootDev_no_touch_active d D hD ev (by rw [hres]; exact hev)
        · exact ih ev hev

/-- Witness for C4: the concrete candidate on the pre-flagged msdos disk
is skipped with only a log. -/
theorem msdos_active_partition_preserved_witness :
    processBootDev msdosActiveDev =
      (msdosActiveDev, [BootEvent.logSkip msdosActiveDev.name], none) :=
  (msdos_active_partition_preserved msdosDiskActive [msdosActiveDev] (by decide)).2.1
    msdosActiveDev (by simp) rfl (by decide)

/-! ## Claim C7 -/

/-- Totality of the lexicographic character-list comparison. -/
theorem strLeAux_total : ∀ xs ys : List Char, strLeAux xs ys = true ∨ strLeAux ys xs = true
  | [], _ => Or.inl rfl
  | _ :: _, [] => Or.inr rfl
  | x :: xs, y :: ys => by
    by_cases h1 : x.toNat < y.toNat
    · left
      simp [strLeAux, h1]
    · by_cases h2 : y.toNat < x.toNat
      · right
        simp [strLeAux, h2]
      · rcases strLeAux_total xs ys with h | h
        · left
          simp [strLeAux, h1, h2, h]
        · right
          simp [strLeAux, h1, h2, h]

/-- Transitivity of the lexicographic character-list comparison. -/
theorem strLeAux_trans : ∀ xs ys zs : List Char,
    strLeAux xs ys = true → strLeAux ys zs = true → strLeAux xs zs = true
  | [], _, _, _, _ => rfl
  | _ :: _, [], _, h1, _ => by simp [strLeAux] at h1
  | _ :: _, _ :: _, [], _, h2 => by simp [strLeAux] at h2
  | x :: xs, y :: ys, z :: zs, h1, h2 => by
    by_cases hab : x.toNat < y.toNat
    · by_cases hbc : y.toNat < z.toNat
      · have hac : x.toNat < z.toNat := Nat.lt_trans hab hbc
        simp [strLeAux, hac]
      · by_cases hcb : z.toNat < y.toNat
        · rw [strLeAux, if_neg hbc, if_pos hcb] at h2
          exact absurd h2 (by simp)
        · have hbc' : y.toNat = z.toNat :=
            Nat.le_antisymm (Nat.le_of_not_lt hcb) (Nat.le_of_not_lt hbc)
          have hac : x.toNat < z.toNat := hbc' ▸ hab
          simp [strLeAux, hac]
    · by_cases hba : y.toNat < x.toNat
      · rw [strLeAux, if_neg hab, if_pos hba] at h1
        exact absurd h1 (by simp)
      · have hab' : x.toNat = y.toNat :=
          Nat.le_antisymm (Nat.le_of_not_lt hba) (Nat.le_of_not_lt hab)
        rw [strLeAux, if_neg hab, if_neg hba] at h1
        by_cases hbc : y.toNat < z.toNat
        · have hac : x.toNat < z.toNat := hab' ▸ hbc
          simp [strLeAux, hac]
        · by_cases hcb : z.toNat < y.toNat
          · rw [strLeAux, if_neg hbc, if_pos hcb] at h2
            exact absurd h2 (by simp)
          · rw [strLeAux, if_neg hbc, if_neg hcb] at h2
            have hac' : ¬ x.toNat < z.toNat := by omega
            have hca' : ¬ z.toNat < x.toNat := by omega
            rw [strLeAux, if_neg hac', if_neg hca']
            exact strLeAux_trans xs ys zs h1 h2

/-- Antisymmetry of the lexicographic character-list comparison. -/
theorem strLeAux_antisymm : ∀ xs ys : List Char,
    strLeAux xs ys = true → strLeAux ys xs = true → xs = ys
  | [], [], _, _ => rfl
  | [], _ :: _, _, h2 => by simp [strLeAux] at h2
  | _ :: _, [], h1, _ => by simp [strLeAux] at h1
  | x :: xs, y :: ys, h1, h2 => by
    by_cases hab : x.toNat < y.toNat
    · have hba : ¬ y.toNat < x.toNat := by omega
      rw [strLeAux, if_neg hba, if_pos hab] at h2
      exact absurd h2 (by simp)
    · by_cases hba : y.toNat < x.toNat
      · rw [strLeAux, if_neg hab, if_pos hba] at h1
        exact absurd h1 (by simp)
      · have heq : x.toNat = y.toNat :=
          Nat.le_antisymm (Nat.le_of_not_lt hba) (Nat.le_of_not_lt hab)
        have hxy : x = y := Char.ext (UInt32.toNat.inj heq)
        subst hxy
        rw [strLeAux, if_neg hab, if_neg hab] at h1
        rw [strLeAux, if_neg hab, if_neg hab] at h2
        rw [strLeAux_antisymm xs ys h1 h2]

/-- Python's string comparison is total. -/
theorem strLe_total (a b : String) : strLe a b = true ∨ strLe b a = true :=
  strLeAux_total a.data b.data

/-- Python's string comparison is transitive. -/
theorem strLe_trans (a b c : String) (h1 : strLe a b = true) (h2 : strLe b c = true) :
    strLe a c = true :=
  strLeAux_trans a.data b.data c.data h1 h2

/-- Python's string comparison is antisymmetric. -/
theorem strLe_antisymm (a b : String) (h1 : strLe a b = true) (h2 : strLe b a = true) :
    a = b := by
  have h := strLeAux_antisymm a.data b.data h1 h2
  cases a
  cases b
  exact congrArg String.mk (by simpa using h)

instance : IsTotal Device devNameLe :=
  ⟨fun a b => by
    unfold devNameLe
    exact strLe_total a.name b.name⟩

instance : IsTrans Device devNameLe :=
  ⟨fun a b c h1 h2 => by
    unfold devNameLe at h1 h2 ⊢
    exact strLe_trans a.name b.name c.name h1 h2⟩

/-- Strict name order: at most one list that is sorted under it exists per
permutation class. -/
def devNameLt (a b : Device) : Prop := devNameLe a b ∧ a.name ≠ b.name

instance : IsAntisymm Device devNameLt :=
  ⟨fun a b h1 h2 => absurd (strLe_antisymm a.name b.name h1.1 h2.1) h1.2⟩

/-- Counterexample to claim C7 as stated: `dasdA` and `dasdDupA` are
distinct DASD devices that share the name "dasda" (their bus ids differ).
The two enumeration orders of this device set produce the main-loop
stanzas in different orders, because the sort is stable and the key
(the name) ties: the claimed order-independence fails without a
distinct-names assumption. -/
theorem C7_counterexample :
    ([dasdA, dasdDupA].Perm [dasdDupA, dasdA]) ∧
    mainZdevStanzas (fun _ => "dasd-eckd") [dasdA, dasdDupA] ≠
      mainZdevStanzas (fun _ => "dasd-eckd") [dasdDupA, dasdA] := by
  constructor
  · exact List.Perm.swap dasdDupA dasdA []
  · decide

/-- Claim C7, amended: the stanzas written by the main `zdev.conf` loop
come from the DASD devices in ascending name order for every input
sequence (duplicate names included, with no hypothesis), and when the
device names are pairwise distinct the stanza sequence is the same for
every enumeration order of the same device set. -/
theorem dasd_stanzas_sorted_deterministic (driverOf : String → String)
    (devices₁ devices₂ : List Device) :
    List.Sorted devNameLe (sortedDasds devices₁) ∧
    (devices₁.Perm devices₂ →
      devices₁.Pairwise (fun a b => a.name ≠ b.name) →
      mainZdevStanzas driverOf devices₁ = mainZdevStanzas driverOf devices₂) := by
  refine ⟨List.sorted_insertionSort devNameLe
    (devices₁.filter (fun d => d.type == "dasd")), fun hperm hnames => ?_⟩
  have hnames₂ : devices₂.Pairwise (fun a b => a.name ≠ b.name) :=
    (hperm.pairwise_iff (fun h => Ne.symm h)).mp hnames
  have hf₁ : (devices₁.filter (fun d => d.type == "dasd")).Pairwise
      (fun a b => a.name ≠ b.name) :=
    List.Pairwise.sublist (List.filter_sublist devices₁) hnames
  have hf₂ : (devices₂.filter (fun d => d.type == "dasd")).Pairwise
      (fun a b => a.name ≠ b.name) :=
    List.Pairwise.sublist (List.filter_sublist devices₂) hnames₂
  have hpw₁ : (sortedDasds devices₁).Pairwise (fun a b => a.name ≠ b.name) :=
    ((List.perm_insertionSort devNameLe
        (devices₁.filter (fun d => d.type == "dasd"))).pairwise_iff
      (fun h => Ne.symm h)).mpr hf₁
  have hpw₂ : (sortedDasds devices₂).Pairwise (fun a b => a.name ≠ b.name) :=
    ((List.perm_insertionSort devNameLe
        (devices₂.filter (fun d => d.type == "dasd"))).pairwise_iff
      (fun h => Ne.symm h)).mpr hf₂
  have hsorted₁ : List.Sorted devNameLe (sortedDasds devices₁) :=
    List.sorted_insertionSort devNameLe (devices₁.filter (fun d => d.type == "dasd"))
  have hsorted₂ : List.Sorted devNameLe (sortedDasds devices₂) :=
    List.sorted_insertionSort devNameLe (devices₂.filter (fun d => d.type == "dasd"))
  have hstrict₁ : List.Pairwise devNameLt (sortedDasds devices₁) :=
    (List.Pairwise.and hsorted₁ hpw₁).imp (fun h => ⟨h.1, h.2⟩)
  have hstrict₂ : List.Pairwise devNameLt (sortedDasds devices₂) :=
    (List.Pairwise.and hsorted₂ hpw₂).imp (fun h => ⟨h.1, h.2⟩)
  have hpermS : (sortedDasds devices₁).Perm (sortedDasds devices₂) :=
    ((List.perm_insertionSort devNameLe
        (devices₁.filter (fun d => d.type == "dasd"))).trans
      (hperm.filter (fun d => d.type == "dasd"))).trans
      (List.perm_insertionSort devNameLe
        (devices₂.filter (fun d => d.type == "dasd"))).symm
  have hkey : sortedDasds devices₁ = sortedDasds devices₂ :=
    List.eq_of_perm_of_sorted hpermS hstrict₁ hstrict₂
  unfold mainZdevStanzas
  rw [hkey]

/-- Witness for the amended C7: the unconditional sortedness conjunct
evaluated on a duplicate-name input, and the determinism conjunct on two
distinct-name DASD devices in either enumeration order. -/
theorem dasd_stanzas_sorted_deterministic_witness :
    List.Sorted devNameLe (sortedDasds [dasdA, dasdDupA]) ∧
    mainZdevStanzas (fun _ => "dasd-eckd") [dasdB, dasdA] =
      mainZdevStanzas (fun _ => "dasd-eckd") [dasdA, dasdB] :=
  ⟨(dasd_stanzas_sorted_deterministic (fun _ => "dasd-eckd")
      [dasdA, dasdDupA] [dasdA, dasdDupA]).1,
    (dasd_stanzas_sorted_deterministic (fun _ => "dasd-eckd")
      [dasdB, dasdA] [dasdA, dasdB]).2 (List.Perm.swap dasdA dasdB []) (by decide)⟩

end Installation
